import Mathlib

/-!
Shallow embedding of `it/option.py`: the closed-variant `Option`/`Result`
algebraic-data-type pair (`Option[T] = Some(T) | Nil`,
`Result[T,E] = Ok(T) | Err(E)`) and their combinators.

Conventions of the embedding:
  - raising an exception is modelled with `Except`: the source method
    `expect` either returns the held value (`Except.ok`) or raises
    (`Except.error`);
  - `class NilError(Exception)` becomes the dedicated error type `NilError`
    (the spec refers to this error kind as `EmptyValueError`);
  - `Err.expect` executes `raise self.error`, and the Python `raise`
    statement propagates its operand only when the operand derives from
    `BaseException`, raising `TypeError` otherwise: the payload universe
    `Payload` separates exception instances from other objects and
    `Raised` is the outcome of the `raise` statement;
  - the `Some`, `Ok` and `Err` variants are `@dc.dataclass(frozen=True)`
    in the source: their generated `__setattr__` override raises
    `FrozenInstanceError` on any field assignment, while the decorated
    `Nil` class keeps the default `object.__setattr__`, which accepts
    assignment; `setattr` models the attempt per class;
  - Python `==` (dataclass structural equality, falling back to identity
    across distinct classes) is modelled by `Val.pyEq` on the disjoint
    union of the two families;
  - `Some.map` applies `func` exactly once and `Nil.map` returns `self`
    without touching `func`: `mapCount` is `map` instrumented with the
    number of invocations of `func`, read off the two source branches.
-/

namespace It

/-- Source `class NilError(Exception): pass` (it/option.py line 21). -/
inductive NilError where
  | mk
deriving DecidableEq

/-- Error raised by the `__setattr__` of a `dataclass(frozen=True)` on any
attempted field assignment. -/
inductive FrozenInstanceError where
  | mk
deriving DecidableEq

/-- Source `Option[T]` with its two concrete variants: `Some(value: T)`
(a frozen dataclass holding one field `value`) and the argumentless `Nil`. -/
inductive Option (T : Type) where
  | Some (value : T)
  | Nil
deriving DecidableEq

namespace Option

variable {T R S : Type}

/-- `Some.issome` returns `True`; `Nil.issome` returns `False`. -/
def issome : Option T → Bool
  | Some _ => true
  | Nil => false

/-- Base-class `Option.isnil`: `return not self.issome()`. -/
def isnil (o : Option T) : Bool := !o.issome

/-- `Some.expect` returns `self.value`; `Nil.expect` raises `NilError()`. -/
def expect : Option T → Except NilError T
  | Some v => Except.ok v
  | Nil => Except.error NilError.mk

/-- `Some.map` returns `Some(func(self.value))`; `Nil.map` returns `self`. -/
def map : Option T → (T → R) → Option R
  | Some v, func => Some (func v)
  | Nil, _ => Nil

/-- `map` instrumented with the number of times `func` is applied: the
`Some` branch of the source calls `func` exactly once, the `Nil` branch
returns `self` without calling it. -/
def mapCount : Option T → (T → R) → Option R × Nat
  | Some v, func => (Some (func v), 1)
  | Nil, _ => (Nil, 0)

/-- `Some.get` returns `self.value`; `Nil.get` returns `default`. -/
def get : Option T → T → T
  | Some v, _ => v
  | Nil, d => d

/-- `Some.__and__` returns `other`; `Nil.__and__` returns `self`. -/
def and : Option T → Option T → Option T
  | Some _, other => other
  | Nil, _ => Nil

/-- `Some.__or__` returns `self`; `Nil.__or__` returns `other`. -/
def or : Option T → Option T → Option T
  | Some v, _ => Some v
  | Nil, other => other

/-- Attempted attribute assignment, dispatched on the receiver's class:
`Some` is a `frozen=True` dataclass whose generated `__setattr__` raises
`FrozenInstanceError` without touching the field; the decorated `Nil` is
a plain class with the default `object.__setattr__`, so the assignment
succeeds, adding an instance attribute while the value stays the
argumentless `Nil` variant. -/
def setattr : Option T → T → Except FrozenInstanceError (Option T)
  | Some _, _ => Except.error FrozenInstanceError.mk
  | Nil, _ => Except.ok Nil

/-- One call of the source API on an `Option` receiver, with its argument. -/
inductive Op (T : Type) where
  | issome
  | isnil
  | expect
  | map (f : T → T)
  | get (d : T)
  | and (o : Option T)
  | or (o : Option T)

/-- The receiver after one method call, read branch-by-branch from the
source: no method body assigns a field (and `frozen=True` forbids it), so
each branch leaves the receiver with the fields it was constructed with. -/
def afterOp : Option T → Op T → Option T
  | Some v, Op.issome => Some v
  | Nil, Op.issome => Nil
  | Some v, Op.isnil => Some v
  | Nil, Op.isnil => Nil
  | Some v, Op.expect => Some v
  | Nil, Op.expect => Nil
  | Some v, Op.map _ => Some v
  | Nil, Op.map _ => Nil
  | Some v, Op.get _ => Some v
  | Nil, Op.get _ => Nil
  | Some v, Op.and _ => Some v
  | Nil, Op.and _ => Nil
  | Some v, Op.or _ => Some v
  | Nil, Op.or _ => Nil

/-- The receiver after a sequence of method calls. -/
def afterOps (o : Option T) (ops : List (Op T)) : Option T :=
  ops.foldl afterOp o

end Option

/-- A Python object used as an error payload: either an instance of a
`BaseException`-derived class (carrying exception data of type `E`, per
the source annotation `TypeVar` bound `Exception`) or any other object
(such as a `str`), of type `V`. -/
inductive Payload (E : Type) (V : Type) where
  | exc (e : E)
  | obj (v : V)
deriving DecidableEq

/-- Outcome of executing the Python statement `raise x`: the operand `x`
itself propagates when it is an exception instance; otherwise the
interpreter raises `TypeError` ("exceptions must derive from
BaseException") in its place. -/
inductive Raised (P : Type) where
  | raised (p : P)
  | typeError
deriving DecidableEq

/-- Source `Result[T, E]` with its two concrete variants, both frozen
dataclasses: `Ok(value: T)` and `Err(error: E)`. -/
inductive Result (T : Type) (E : Type) where
  | Ok (value : T)
  | Err (error : E)
deriving DecidableEq

namespace Result

variable {T E R V : Type}

/-- `Ok.isok` returns `True`; `Err.isok` returns `False`. -/
def isok : Result T E → Bool
  | Ok _ => true
  | Err _ => false

/-- Base-class `Result.iserr`: `return not self.isok()`. -/
def iserr (r : Result T E) : Bool := !r.isok

/-- `Ok.expect` returns `self.value`; `Err.expect` executes
`raise self.error`: the stored payload propagates itself when it is an
exception instance, and the `raise` statement raises `TypeError` in its
place when it is not. -/
def expect : Result T (Payload E V) → Except (Raised (Payload E V)) T
  | Ok v => Except.ok v
  | Err (Payload.exc e) => Except.error (Raised.raised (Payload.exc e))
  | Err (Payload.obj _) => Except.error Raised.typeError

/-- `Ok.map` returns `Ok(func(self.value))`; `Err.map` returns `self`. -/
def map : Result T E → (T → R) → Result R E
  | Ok v, func => Ok (func v)
  | Err e, _ => Err e

/-- `Ok.get` returns `self.value`; `Err.get` returns `default`. -/
def get : Result T E → T → T
  | Ok v, _ => v
  | Err _, d => d

/-- `Ok.__and__` returns `other`; `Err.__and__` returns `self`. -/
def and : Result T E → Result T E → Result T E
  | Ok _, other => other
  | Err e, _ => Err e

/-- `Ok.__or__` returns `self`; `Err.__or__` returns `other`. -/
def or : Result T E → Result T E → Result T E
  | Ok v, _ => Ok v
  | Err _, other => other

/-- Attempted field assignment on a `frozen=True` dataclass variant:
raises `FrozenInstanceError`, never producing a modified value. -/
def setattr (_r : Result T E) (_w : T) : Except FrozenInstanceError (Result T E) :=
  Except.error FrozenInstanceError.mk

/-- One call of the source API on a `Result` receiver, with its argument. -/
inductive Op (T : Type) (E : Type) where
  | isok
  | iserr
  | expect
  | map (f : T → T)
  | get (d : T)
  | and (r : Result T E)
  | or (r : Result T E)

/-- The receiver after one method call, read branch-by-branch from the
source: no method body assigns a field (and `frozen=True` forbids it). -/
def afterOp : Result T E → Op T E → Result T E
  | Ok v, Op.isok => Ok v
  | Err e, Op.isok => Err e
  | Ok v, Op.iserr => Ok v
  | Err e, Op.iserr => Err e
  | Ok v, Op.expect => Ok v
  | Err e, Op.expect => Err e
  | Ok v, Op.map _ => Ok v
  | Err e, Op.map _ => Err e
  | Ok v, Op.get _ => Ok v
  | Err e, Op.get _ => Err e
  | Ok v, Op.and _ => Ok v
  | Err e, Op.and _ => Err e
  | Ok v, Op.or _ => Ok v
  | Err e, Op.or _ => Err e

/-- The receiver after a sequence of method calls. -/
def afterOps (r : Result T E) (ops : List (Op T E)) : Result T E :=
  ops.foldl afterOp r

end Result

/-- A value of either family, so that Python `==` across families can be
stated. -/
inductive Val (T : Type) (E : Type) where
  | opt (o : Option T)
  | res (r : Result T E)

namespace Val

variable {T E : Type}

/-- Python `==` on values of the two families. `Some`, `Ok` and `Err` are
dataclasses: the generated method compares field tuples when `other` is of
the same class and answers `NotImplemented` otherwise, which falls back to
an identity comparison, hence `False` across distinct classes. `Nil` keeps
the default `object` equality (identity); the decorated `Nil` is a single
instance, so `Nil == Nil` is `True`. -/
def pyEq [DecidableEq T] [DecidableEq E] : Val T E → Val T E → Bool
  | opt (Option.Some v), opt (Option.Some w) => decide (v = w)
  | opt Option.Nil, opt Option.Nil => true
  | res (Result.Ok v), res (Result.Ok w) => decide (v = w)
  | res (Result.Err e), res (Result.Err f) => decide (e = f)
  | _, _ => false

end Val

theorem Option.afterOp_fix {T : Type} (o : Option T) (op : Option.Op T) :
    Option.afterOp o op = o := by
  cases o <;> cases op <;> rfl

theorem Option.afterOps_fix {T : Type} (o : Option T) (ops : List (Option.Op T)) :
    Option.afterOps o ops = o := by
  induction ops generalizing o with
  | nil => rfl
  | cons op rest ih =>
      show Option.afterOps (Option.afterOp o op) rest = o
      rw [ih, Option.afterOp_fix]

theorem Result.afterOpFixR {T E : Type} (r : Result T E) (op : Result.Op T E) :
    Result.afterOp r op = r := by
  cases r <;> cases op <;> rfl

theorem Result.afterOpsFixR {T E : Type} (r : Result T E) (ops : List (Result.Op T E)) :
    Result.afterOps r ops = r := by
  induction ops generalizing r with
  | nil => rfl
  | cons op rest ih =>
      show Result.afterOps (Result.afterOp r op) rest = r
      rw [ih, Result.afterOpFixR]

/-- C1: for every `v` and `f`, `Some(v).map(f) == Some(f(v))` (with `func`
applied exactly once); `Nil.map(f) == Nil` with `func` never invoked
(invocation count 0); chained `map` calls short-circuit at the first
`Nil`, with neither `f` nor `g` invoked (total invocation count 0); and
the instrumented `mapCount` computes exactly `map`. -/
theorem map_some_nil_probe (T R S : Type) (v : T) (f : T → R) (g : R → S) :
    Option.map (Option.Some v) f = Option.Some (f v)
    ∧ Option.map (Option.Nil : Option T) f = Option.Nil
    ∧ Option.mapCount (Option.Some v) f = (Option.Some (f v), 1)
    ∧ Option.mapCount (Option.Nil : Option T) f = (Option.Nil, 0)
    ∧ Option.map (Option.map (Option.Nil : Option T) f) g = Option.Nil
    ∧ (Option.mapCount (Option.Nil : Option T) f).2
        + (Option.mapCount (Option.mapCount (Option.Nil : Option T) f).1 g).2 = 0
    ∧ (∀ o : Option T, (Option.mapCount o f).1 = Option.map o f) :=
  ⟨rfl, rfl, rfl, rfl, rfl, rfl, fun o => by cases o <;> rfl⟩

/-- C2 counterexample: at the concrete non-exception payload `"bad"`,
`Err("bad").expect()` raises `TypeError`, not `"bad"` itself — the claim
fails for payloads that are not exception objects. -/
theorem expect_err_nonexception_cex :
    Result.expect (Result.Err (Payload.obj "bad") : Result Nat (Payload String String))
      = Except.error Raised.typeError
    ∧ Result.expect (Result.Err (Payload.obj "bad") : Result Nat (Payload String String))
      ≠ Except.error (Raised.raised (Payload.obj "bad")) :=
  ⟨rfl, fun h => by simp [Result.expect] at h⟩

/-- C2 (amended): for every `v`, `Ok(v).expect()` returns `v`; for every
payload `e` that is an exception instance (derives from `BaseException`,
as the source annotation bounds `E` by `Exception`), `Err(e).expect()`
propagates `e` itself as the failure cause; for a non-exception payload,
`raise self.error` raises `TypeError` instead of the payload. -/
theorem expect_ok_err (T E V : Type) (v : T) (e : E) (s : V) :
    Result.expect (Result.Ok v : Result T (Payload E V)) = Except.ok v
    ∧ Result.expect (Result.Err (Payload.exc e) : Result T (Payload E V))
        = Except.error (Raised.raised (Payload.exc e))
    ∧ Result.expect (Result.Err (Payload.obj s) : Result T (Payload E V))
        = Except.error Raised.typeError :=
  ⟨rfl, rfl, rfl⟩

/-- C3: for every `v`, `Some(v).expect()` returns `v`; `Nil.expect()`
fails with the dedicated error kind `NilError` (the spec's
`EmptyValueError`: the error kind signaling that an absent value was
unwrapped), the only failure its `Except NilError` type admits, rather
than a bare or generic exception. -/
theorem expect_some_nil (T : Type) (v : T) :
    Option.expect (Option.Some v) = Except.ok v
    ∧ Option.expect (Option.Nil : Option T) = Except.error NilError.mk :=
  ⟨rfl, rfl⟩

/-- C4: the `__and__`/`__or__` truth tables of both families: for all
`a`, `b`, `Some(a) & Some(b) == Some(b)`, `Nil & Some(b) == Nil`,
`Some(a) | Some(b) == Some(a)`, `Nil | Some(b) == Some(b)`; and for every
`Result` operand `x`, `Ok` returns `other` for `and` and `self` for `or`,
`Err` returns `self` for `and` and `other` for `or`. -/
theorem and_or_truth_tables (T E : Type) (a b : T) (x : Result T E) (v : T) (e : E) :
    Option.and (Option.Some a) (Option.Some b) = Option.Some b
    ∧ Option.and (Option.Nil : Option T) (Option.Some b) = Option.Nil
    ∧ Option.or (Option.Some a) (Option.Some b) = Option.Some a
    ∧ Option.or (Option.Nil : Option T) (Option.Some b) = Option.Some b
    ∧ Result.and (Result.Ok v : Result T E) x = x
    ∧ Result.or (Result.Ok v : Result T E) x = Result.Ok v
    ∧ Result.and (Result.Err e : Result T E) x = Result.Err e
    ∧ Result.or (Result.Err e : Result T E) x = x :=
  ⟨rfl, rfl, rfl, rfl, rfl, rfl, rfl, rfl⟩

/-- C5: `get` is total — its type `Option T → T → T` (resp.
`Result T E → T → T`) returns a plain value, signaling no failure — and
for all `v`, `d`, `e`: `Some(v).get(d) == v`, `Nil.get(d) == d`,
`Ok(v).get(d) == v`, `Err(e).get(d) == d`. -/
theorem get_total (T E : Type) (v d : T) (e : E) :
    Option.get (Option.Some v) d = v
    ∧ Option.get (Option.Nil : Option T) d = d
    ∧ Result.get (Result.Ok v : Result T E) d = v
    ∧ Result.get (Result.Err e : Result T E) d = d :=
  ⟨rfl, rfl, rfl, rfl⟩

/-- C6: for every `Option` value `o`, `o.isnil()` is the logical negation
of `o.issome()` (with `Some(v).issome()` true and `Nil.issome()` false);
and for every `Result` value `r`, `r.isok()` and `r.iserr()` are mutually
exclusive (never both true) and exhaustive (always at least one true). -/
theorem variant_predicates (T E : Type) (o : Option T) (r : Result T E) (v : T) (e : E) :
    o.isnil = !o.issome
    ∧ (Option.Some v).issome = true
    ∧ (Option.Nil : Option T).issome = false
    ∧ Result.isok (Result.Ok v : Result T E) = true
    ∧ Result.isok (Result.Err e : Result T E) = false
    ∧ (r.isok && r.iserr) = false
    ∧ (r.isok || r.iserr) = true :=
  ⟨rfl, rfl, rfl, rfl, rfl, by cases r <;> rfl, by cases r <;> rfl⟩

/-- C7: mapping the identity function is a round-trip: for every `v`,
`Some(v).map(identity) == Some(v)` and `Ok(v).map(identity) == Ok(v)`. -/
theorem map_identity (T E : Type) (v : T) :
    Option.map (Option.Some v) (fun x => x) = Option.Some v
    ∧ Result.map (Result.Ok v : Result T E) (fun x => x) = Result.Ok v :=
  ⟨rfl, rfl⟩

/-- C8: exactly one `Nil` value exists: a value is `Nil`-variant exactly
when it equals the argumentless constant `Nil`, any two `Nil`-variant
values are equal, and the ways of obtaining it (`Nil.map(f)`,
`Nil & Some(v)`, ...) all yield that same value. -/
theorem nil_unique (T : Type) (v : T) (f : T → T) :
    (∀ o : Option T, o.isnil = true ↔ o = Option.Nil)
    ∧ (∀ o p : Option T, o.isnil = true → p.isnil = true → o = p)
    ∧ Option.map (Option.Nil : Option T) f = Option.Nil
    ∧ Option.and (Option.Nil : Option T) (Option.Some v) = Option.Nil := by
  refine ⟨fun o => ?_, fun o p ho hp => ?_, rfl, rfl⟩
  · cases o <;> simp [Option.isnil, Option.issome]
  · cases o <;> cases p <;> simp_all [Option.isnil, Option.issome]

/-- C8 witness: two concrete `Nil` results coincide. -/
theorem nil_unique_witness :
    Option.map (Option.Nil : Option Nat) (fun n => n + 1)
      = Option.and (Option.Nil : Option Nat) (Option.Some 5) :=
  (nil_unique Nat 5 (fun n => n + 1)).2.1 _ _ rfl rfl

/-- C9: every value of both families is exactly one of its two variants
(no third state); every sequence of API calls leaves the receiver's
variant and held value unchanged; and any attempted field assignment on
the frozen variants the claim enumerates — every `Some(v)`, `Ok(v)` and
`Err(e)` — fails instead of producing a modified value. -/
theorem immutable_closed_variants (T E : Type) :
    (∀ o : Option T, (∃ v, o = Option.Some v) ∨ o = Option.Nil)
    ∧ (∀ r : Result T E, (∃ v, r = Result.Ok v) ∨ (∃ e, r = Result.Err e))
    ∧ (∀ (o : Option T) (ops : List (Option.Op T)), Option.afterOps o ops = o)
    ∧ (∀ (r : Result T E) (ops : List (Result.Op T E)), Result.afterOps r ops = r)
    ∧ (∀ (v w : T),
        Option.setattr (Option.Some v) w = Except.error FrozenInstanceError.mk)
    ∧ (∀ (r : Result T E) (w : T),
        Result.setattr r w = Except.error FrozenInstanceError.mk) := by
  refine ⟨fun o => ?_, fun r => ?_, fun o ops => Option.afterOps_fix o ops,
    fun r ops => Result.afterOpsFixR r ops, fun v w => rfl, fun r w => rfl⟩
  · cases o with
    | Some v => exact Or.inl ⟨v, rfl⟩
    | Nil => exact Or.inr rfl
  · cases r with
    | Ok v => exact Or.inl ⟨v, rfl⟩
    | Err e => exact Or.inr ⟨e, rfl⟩

/-- C10: Python `==` on the variants is structural: `Some(v) == Some(w)`
iff `v == w`, `Ok(v) == Ok(w)` iff `v == w`, `Err(e) == Err(f)` iff
`e == f`; values of different variants or different families are never
equal. -/
theorem structural_equality (T E : Type) [DecidableEq T] [DecidableEq E]
    (v w : T) (e f : E) :
    (Val.pyEq (Val.opt (Option.Some v) : Val T E) (Val.opt (Option.Some w)) = true
      ↔ v = w)
    ∧ (Val.pyEq (Val.res (Result.Ok v) : Val T E) (Val.res (Result.Ok w)) = true
      ↔ v = w)
    ∧ (Val.pyEq (Val.res (Result.Err e) : Val T E) (Val.res (Result.Err f)) = true
      ↔ e = f)
    ∧ Val.pyEq (Val.opt (Option.Some v) : Val T E) (Val.opt Option.Nil) = false
    ∧ Val.pyEq (Val.opt Option.Nil : Val T E) (Val.opt (Option.Some v)) = false
    ∧ Val.pyEq (Val.res (Result.Ok v) : Val T E) (Val.res (Result.Err e)) = false
    ∧ Val.pyEq (Val.opt (Option.Some v) : Val T E) (Val.res (Result.Ok v)) = false :=
  ⟨by simp [Val.pyEq], by simp [Val.pyEq], by simp [Val.pyEq], rfl, rfl, rfl, rfl⟩

/-- C10 witness: equal payloads compare equal at a concrete input. -/
theorem structural_equality_witness :
    Val.pyEq (Val.opt (Option.Some 2) : Val Nat Nat) (Val.opt (Option.Some 2)) = true :=
  (structural_equality Nat Nat 2 2 0 0).1.mpr rfl

end It
